import Mathlib

/-!
Verification development for the dfVFS repository.

Shallow embedding of:
- `dfvfs/helpers/file_system_searcher.py` (`FindSpec`, `FileSystemSearcher`)
- `dfvfs/encryption/aes_decrypter.py` (`AESDecrypter`)
- `pyvfs/lib/tsk_partition.py` (`GetTSKVsPartByPathSpec` and helpers)

Python machine aspects are modelled explicitly: `Option` stands for values
that may be `None`, `Except` for code that can raise, `Int` for Python
integers where negatives occur, `List Nat` for byte strings, and `Nat`
identifiers for opaque `path_spec` objects.  External collaborators
(`re` regular expressions, the `cryptography` cipher backend, `pytsk3`)
are modelled as explicit function parameters or recorded data, so every
definition is executable.
-/

set_option autoImplicit false

namespace DfVFS

/-- The file entry type constants of `dfvfs.lib.definitions`.
Modelled from the spec: `definitions.py` is not in the sources; the spec
lists the entry kinds device / directory / regular / link / pipe / socket. -/
inductive FileEntryType : Type where
  | device
  | directory
  | file
  | link
  | pipe
  | socket
  deriving DecidableEq, Repr

/-- A file entry as consumed by the searcher (`vfs.FileEntry` interface):
`name`, the results of the `IsAllocated()` / `IsDevice()` / ... predicates,
and its `path_spec` (modelled as an opaque natural-number identifier). -/
structure FileEntry : Type where
  name : String
  is_allocated : Bool
  is_device : Bool
  is_directory : Bool
  is_file : Bool
  is_link : Bool
  is_pipe : Bool
  is_socket : Bool
  path_spec : Nat
  deriving DecidableEq, Repr

/-- The state of a `FindSpec` object (`file_system_searcher.py`, `FindSpec`):
the attributes set by `__init__` together with the derived state filled in
by `Initialize` (`_location_segments`, `_number_of_location_segments`). -/
structure FindSpec : Type where
  file_entry_types : Option (List FileEntryType)
  is_allocated : Option Bool
  is_case_sensitive : Bool
  is_regex : Option Bool
  location : Option String
  location_regex : Option String
  location_segments : Option (List String)
  number_of_location_segments : Nat

/-- The `FindSpec()` constructor called with no arguments: the defaults of
`FindSpec.__init__` (`file_entry_types=None`, `is_allocated=True`,
`case_sensitive=True`, no location). -/
def FindSpec.defaultSpec : FindSpec :=
  { file_entry_types := none
    is_allocated := some true
    is_case_sensitive := true
    is_regex := none
    location := none
    location_regex := none
    location_segments := none
    number_of_location_segments := 0 }

/-- `FindSpec.Initialize`: splits `_location` (or `_location_regex`) into
segments with the file system's `SplitPath` and fixes the segment count. -/
def FindSpec.Initialize (splitPath : String → List String) (s : FindSpec) : FindSpec :=
  let s1 :=
    match s.location, s.location_regex with
    | some loc, _ => { s with location_segments := some (splitPath loc) }
    | none, some lre => { s with location_segments := some (splitPath lre) }
    | none, none => s
  match s1.location_segments with
  | some segments => { s1 with number_of_location_segments := segments.length }
  | none => s1

/-- `FindSpec._CheckIsAllocated`: literally
`self._is_allocated is not None and self._is_allocated == file_entry.IsAllocated()`. -/
def FindSpec.CheckIsAllocated (s : FindSpec) (e : FileEntry) : Bool :=
  match s.is_allocated with
  | none => false
  | some b => b == e.is_allocated

/-- `FindSpec._CheckIsDevice`: fails when a type filter is present and does
not contain the device kind, otherwise returns `file_entry.IsDevice()`. -/
def FindSpec.CheckIsDevice (s : FindSpec) (e : FileEntry) : Bool :=
  match s.file_entry_types with
  | some types => if FileEntryType.device ∈ types then e.is_device else false
  | none => e.is_device

/-- `FindSpec._CheckIsDirectory`. -/
def FindSpec.CheckIsDirectory (s : FindSpec) (e : FileEntry) : Bool :=
  match s.file_entry_types with
  | some types => if FileEntryType.directory ∈ types then e.is_directory else false
  | none => e.is_directory

/-- `FindSpec._CheckIsFile`. -/
def FindSpec.CheckIsFile (s : FindSpec) (e : FileEntry) : Bool :=
  match s.file_entry_types with
  | some types => if FileEntryType.file ∈ types then e.is_file else false
  | none => e.is_file

/-- `FindSpec._CheckIsLink`. -/
def FindSpec.CheckIsLink (s : FindSpec) (e : FileEntry) : Bool :=
  match s.file_entry_types with
  | some types => if FileEntryType.link ∈ types then e.is_link else false
  | none => e.is_link

/-- `FindSpec._CheckIsPipe`. -/
def FindSpec.CheckIsPipe (s : FindSpec) (e : FileEntry) : Bool :=
  match s.file_entry_types with
  | some types => if FileEntryType.pipe ∈ types then e.is_pipe else false
  | none => e.is_pipe

/-- `FindSpec._CheckIsSocket`. -/
def FindSpec.CheckIsSocket (s : FindSpec) (e : FileEntry) : Bool :=
  match s.file_entry_types with
  | some types => if FileEntryType.socket ∈ types then e.is_socket else false
  | none => e.is_socket

/-- `FindSpec._CheckFileEntryType`: the disjunction of the six kind checks. -/
def FindSpec.CheckFileEntryType (s : FindSpec) (e : FileEntry) : Bool :=
  s.CheckIsDevice e || s.CheckIsDirectory e || s.CheckIsFile e ||
    s.CheckIsLink e || s.CheckIsPipe e || s.CheckIsSocket e

/-- `FindSpec.AtMaximumDepth`: when `_location_segments` is set, true exactly
for `search_depth == self._number_of_location_segments`; otherwise false. -/
def FindSpec.AtMaximumDepth (s : FindSpec) (search_depth : Int) : Bool :=
  match s.location_segments with
  | some _ => search_depth == (s.number_of_location_segments : Int)
  | none => false

/-- `FindSpec.Matches`.  The Python `re` module is abstracted by `compile`,
which receives the case-sensitivity flag and the anchored pattern string
built by the source (`'^{0:s}$'`) and returns the compiled pattern's match
function, or `none` when `re.compile` raises `sre_constants.error` (in which
case the source returns `False`).  The in-place memoization of compiled
segments does not change the returned value and is dropped. -/
def FindSpec.Matches (compile : Bool → String → Option (String → Bool))
    (s : FindSpec) (e : FileEntry) (search_depth : Int) : Bool :=
  match s.location_segments with
  | none => s.CheckFileEntryType e && s.CheckIsAllocated e
  | some segments =>
    if search_depth < 0 ∨ search_depth > (s.number_of_location_segments : Int) then
      false
    else if search_depth == 0 then
      -- the root has no entry in the location segments and no name to match
      if "" ≠ e.name then false
      else if search_depth ≠ (s.number_of_location_segments : Int) then false
      else s.CheckFileEntryType e && s.CheckIsAllocated e
    else
      let seg := segments.getD (search_depth - 1).toNat ""
      if s.is_regex.getD false then
        match compile s.is_case_sensitive ("^" ++ seg ++ "$") with
        | none => false
        | some patternMatch =>
          if ¬ patternMatch e.name then false
          else if search_depth ≠ (s.number_of_location_segments : Int) then false
          else s.CheckFileEntryType e && s.CheckIsAllocated e
      else if s.is_case_sensitive then
        if seg ≠ e.name then false
        else if search_depth ≠ (s.number_of_location_segments : Int) then false
        else s.CheckFileEntryType e && s.CheckIsAllocated e
      else
        if seg.toLower ≠ e.name.toLower then false
        else if search_depth ≠ (s.number_of_location_segments : Int) then false
        else s.CheckFileEntryType e && s.CheckIsAllocated e

/-- Claim C6: `AtMaximumDepth(depth)` is true exactly when the find
specification has a location constraint (location segments are set) and
`depth` equals the stored number of location segments; without a location
constraint it is false at every depth. -/
theorem findSpec_atMaximumDepth_iff (s : FindSpec) (depth : Int) :
    s.AtMaximumDepth depth = true ↔
      s.location_segments.isSome = true ∧
        depth = (s.number_of_location_segments : Int) := by
  unfold FindSpec.AtMaximumDepth
  cases s.location_segments with
  | none => simp
  | some segments => simp

/-- A helper fact: the allocation check of the source is a conjunction that
is false outright when `_is_allocated` is `None`. -/
theorem FindSpec.checkIsAllocated_none (s : FindSpec) (e : FileEntry)
    (h : s.is_allocated = none) : s.CheckIsAllocated e = false := by
  unfold FindSpec.CheckIsAllocated
  rw [h]

/-- Claim C4: with a location constraint, `Matches` returns false at every
depth different from the stored segment count (in particular at every depth
outside `[0, segment_count]`), whatever the entry and its name. -/
theorem findSpec_location_matches_only_at_segment_count
    (compile : Bool → String → Option (String → Bool)) (s : FindSpec) (e : FileEntry)
    (segments : List String) (h : s.location_segments = some segments)
    (depth : Int) (hd : depth ≠ (s.number_of_location_segments : Int)) :
    s.Matches compile e depth = false := by
  unfold FindSpec.Matches
  rw [h]
  repeat' split
  any_goals rfl
  any_goals simp_all
  all_goals (split <;> rfl)

/-- A sample allocated regular file entry used to witness the `FindSpec`
theorems on concrete inputs. -/
def sampleEntry : FileEntry :=
  { name := "a"
    is_allocated := true
    is_device := false
    is_directory := false
    is_file := true
    is_link := false
    is_pipe := false
    is_socket := false
    path_spec := 7 }

/-- A concrete stand-in for `re.compile` that compiles every pattern to a
literal full-string matcher. -/
def literalCompile : Bool → String → Option (String → Bool) :=
  fun _ pattern => some (fun nm => ("^" ++ nm ++ "$") == pattern)

/-- A concrete `FindSpec` with literal location segments `["a", "b"]`, as
after `Initialize` on location `/a/b`. -/
def specLocAB : FindSpec :=
  { file_entry_types := none
    is_allocated := some true
    is_case_sensitive := true
    is_regex := some false
    location := some "/a/b"
    location_regex := none
    location_segments := some ["a", "b"]
    number_of_location_segments := 2 }

/-- Witness for claim C4: the spec for `/a/b` does not match the entry
named `a` at depth 1, even though the name equals segment 1. -/
theorem findSpec_location_matches_only_at_segment_count_witness :
    specLocAB.Matches literalCompile sampleEntry 1 = false :=
  findSpec_location_matches_only_at_segment_count literalCompile specLocAB sampleEntry
    ["a", "b"] rfl 1 (by decide)

/-- Claim C2 (divergence): when `is_allocated` is `None` — documented as
"no preference" — `Matches` returns false for every entry at every depth,
because `_CheckIsAllocated` requires `_is_allocated is not None`. -/
theorem findSpec_isAllocated_none_never_matches
    (compile : Bool → String → Option (String → Bool)) (s : FindSpec) (e : FileEntry)
    (depth : Int) (h : s.is_allocated = none) :
    s.Matches compile e depth = false := by
  have hca : ∀ e2 : FileEntry, s.CheckIsAllocated e2 = false :=
    fun e2 => s.checkIsAllocated_none e2 h
  unfold FindSpec.Matches
  repeat' split
  any_goals rfl
  any_goals simp_all
  all_goals (split <;> rfl)

/-- A `FindSpec` built with `is_allocated=None` and no other constraint. -/
def specNoPreference : FindSpec :=
  { FindSpec.defaultSpec with is_allocated := none }

/-- Witness for claim C2: the no-preference spec rejects an allocated
regular file at depth 0. -/
theorem findSpec_isAllocated_none_never_matches_witness :
    specNoPreference.Matches literalCompile sampleEntry 0 = false :=
  findSpec_isAllocated_none_never_matches literalCompile specNoPreference sampleEntry 0 rfl

/-- A stand-in for `re.compile` that fails (raises, i.e. returns `none`) on
the anchored pattern built from the malformed segment `[`, and compiles
every other pattern to a literal matcher. -/
def compileRejectingBracket : Bool → String → Option (String → Bool) :=
  fun _ pattern =>
    if pattern = "^[$" then none
    else some (fun nm => ("^" ++ nm ++ "$") == pattern)

/-- A regex `FindSpec` whose first segment `[` is malformed and whose final
segment `a` is a valid pattern. -/
def specBadFirstSegment : FindSpec :=
  { file_entry_types := none
    is_allocated := some true
    is_case_sensitive := true
    is_regex := some true
    location := none
    location_regex := some "/[/a"
    location_segments := some ["[", "a"]
    number_of_location_segments := 2 }

/-- Counterexample for claim C7: a `FindSpec` whose location_regex contains
a malformed segment (`[`, whose anchored pattern fails to compile) can still
match: with the malformed segment in non-final position, `Matches` at depth
`segment_count` only examines the final segment, so the entry named `a`
matches at depth 2.  Hence "the FindSpec never matches" is false. -/
theorem findSpec_malformed_regex_still_matches :
    (compileRejectingBracket true ("^" ++ "[" ++ "$")).isNone = true ∧
      specBadFirstSegment.Matches compileRejectingBracket sampleEntry 2 = true := by
  constructor
  · decide
  · decide

/-- Claim C7 as amended: `Matches` returns false for every file entry at the
depth of the malformed segment (the compile failure is caught and the spec
fails closed, without an exception); only when the malformed segment is the
final one does the spec never match at any depth. -/
theorem findSpec_malformed_regex_fails_closed
    (compile : Bool → String → Option (String → Bool)) (s : FindSpec) (e : FileEntry)
    (segments : List String) (depth : Int)
    (hseg : s.location_segments = some segments)
    (hreg : s.is_regex = some true)
    (h0 : 0 < depth) (hn : depth ≤ (s.number_of_location_segments : Int))
    (hc : compile s.is_case_sensitive
      ("^" ++ segments.getD (depth - 1).toNat "" ++ "$") = none) :
    s.Matches compile e depth = false := by
  unfold FindSpec.Matches
  rw [hseg]
  repeat' split
  any_goals rfl
  all_goals simp_all

/-- Witness for claim C7 as amended: the same spec fails closed at depth 1,
the depth of its malformed segment `[`. -/
theorem findSpec_malformed_regex_fails_closed_witness :
    specBadFirstSegment.Matches compileRejectingBracket sampleEntry 1 = false :=
  findSpec_malformed_regex_fails_closed compileRejectingBracket specBadFirstSegment
    sampleEntry ["[", "a"] 1 rfl rfl (by decide) (by decide) rfl

/-- A file entry tree as seen by `FileSystemSearcher`: the entry's data, a
flag recording that iterating `sub_file_entries` raises `errors.AccessError`
(the exception class itself is not under the sources; it is only caught), and
the child entries the iteration would produce otherwise. -/
inductive VEntry : Type where
  | mk (info : FileEntry) (access_error : Bool) (children : List VEntry)

/-- The entry data of a tree node. -/
def VEntry.info : VEntry → FileEntry
  | VEntry.mk i _ _ => i

mutual

/-- `FileSystemSearcher._FindInFileEntry`: yields the entry's `path_spec`
once per find specification that matches it at this depth, keeps every spec
that is not at maximum depth, prunes when none remain, and recurses into the
children one level deeper; an `AccessError` from child enumeration is caught
and the subtree treated as having no children. -/
def findInFileEntry (compile : Bool → String → Option (String → Bool)) :
    VEntry → List FindSpec → Int → List Nat
  | VEntry.mk info access_error children, find_specs, search_depth =>
    let own := (find_specs.filter fun fs => fs.Matches compile info search_depth).map
      fun _ => info.path_spec
    let sub_find_specs := find_specs.filter fun fs => ! fs.AtMaximumDepth search_depth
    if sub_find_specs.isEmpty then own
    else if access_error then own
    else own ++ findInEntries compile children sub_find_specs (search_depth + 1)

/-- The inner `for sub_file_entry in file_entry.sub_file_entries` loop of
`_FindInFileEntry`, in order. -/
def findInEntries (compile : Bool → String → Option (String → Bool)) :
    List VEntry → List FindSpec → Int → List Nat
  | [], _, _ => []
  | e :: rest, find_specs, search_depth =>
    findInFileEntry compile e find_specs search_depth ++
      findInEntries compile rest find_specs search_depth

end

/-- The Python exceptions the searcher embedding distinguishes. -/
inductive PyError : Type where
  | attributeError
  deriving DecidableEq, Repr

/-- The state a `FileSystemSearcher` needs from its file system and mount
point: whether `type_indicator` is in `_PARENTLESS_TYPE_INDICATORS`, the
`SplitPath` rule, the root file entry, and the file entry resolved from the
mount point path specification. -/
structure SearchFileSystem : Type where
  parentless : Bool
  splitPath : String → List String
  root_entry : VEntry
  mount_entry : VEntry

/-- `FileSystemSearcher.Find`.  With `find_specs=None` (the documented
default) the source executes `find_specs.append(FindSpec())` on `None`,
which raises `AttributeError`; with an empty list it appends the default
`FindSpec()`.  Every spec is then initialized against the file system, the
starting entry resolved, and the recursive search run from depth 0. -/
def FileSystemSearcherFind (compile : Bool → String → Option (String → Bool))
    (fs : SearchFileSystem) (find_specs : Option (List FindSpec)) :
    Except PyError (List Nat) :=
  match find_specs with
  | none => Except.error PyError.attributeError
  | some specs0 =>
    let specs1 := if specs0.isEmpty then [FindSpec.defaultSpec] else specs0
    let specs2 := specs1.map (FindSpec.Initialize fs.splitPath)
    let start := if fs.parentless then fs.mount_entry else fs.root_entry
    Except.ok (findInFileEntry compile start specs2 0)

/-- Claim C8: an entry whose child enumeration raises `AccessError` is
treated exactly as an entry with no children — its own matches are still
produced and nothing propagates — and replacing such an entry anywhere in a
sibling list leaves the matches of the other subtrees unchanged. -/
theorem searcher_access_error_prunes_subtree
    (compile : Bool → String → Option (String → Bool)) (info : FileEntry)
    (children : List VEntry) (find_specs : List FindSpec) (search_depth : Int) :
    (∀ before after : List VEntry,
      findInEntries compile (before ++ VEntry.mk info true children :: after)
          find_specs search_depth =
        findInEntries compile (before ++ VEntry.mk info false [] :: after)
          find_specs search_depth) ∧
      findInFileEntry compile (VEntry.mk info true children) find_specs search_depth =
        findInFileEntry compile (VEntry.mk info false []) find_specs search_depth := by
  have hbase :
      findInFileEntry compile (VEntry.mk info true children) find_specs search_depth =
        findInFileEntry compile (VEntry.mk info false []) find_specs search_depth := by
    simp only [findInFileEntry, findInEntries]
    split
    · rfl
    · simp
  refine ⟨fun before after => ?_, hbase⟩
  induction before with
  | nil => simp [findInEntries, hbase]
  | cons b rest ih => simp [findInEntries, ih]

/-- Claim C1 (divergence): `Find` raises `AttributeError` when called with
`find_specs=None` (its documented default), while with an explicit empty
list it succeeds and searches with the single default `FindSpec()` from the
resolved starting entry. -/
theorem searcherFind_none_raises (compile : Bool → String → Option (String → Bool))
    (fs : SearchFileSystem) :
    FileSystemSearcherFind compile fs none = Except.error PyError.attributeError ∧
      FileSystemSearcherFind compile fs (some []) =
        Except.ok (findInFileEntry compile
          (if fs.parentless then fs.mount_entry else fs.root_entry)
          [FindSpec.Initialize fs.splitPath FindSpec.defaultSpec] 0) := by
  constructor
  · rfl
  · rfl

/-- Python truthiness of an optional byte string argument: `None` and the
empty byte string are falsy. -/
def pyBytesTruthy : Option (List Nat) → Bool
  | none => false
  | some bs => ! bs.isEmpty

/-- The AES encryption mode constants of `dfvfs.lib.definitions`.
Modelled from the spec: `definitions.py` is not in the sources; the spec
names the supported modes CBC, CFB, ECB and OFB, with ECB the one mode
without chaining (no initialization vector required). -/
def ENCRYPTION_MODE_CBC : String := "cbc"

/-- The CFB mode constant, see `ENCRYPTION_MODE_CBC`. -/
def ENCRYPTION_MODE_CFB : String := "cfb"

/-- The ECB mode constant, see `ENCRYPTION_MODE_CBC`. -/
def ENCRYPTION_MODE_ECB : String := "ecb"

/-- The OFB mode constant, see `ENCRYPTION_MODE_CBC`. -/
def ENCRYPTION_MODE_OFB : String := "ofb"

/-- `AESDecrypter._ENCRYPTION_MODES`. -/
def ENCRYPTION_MODES : List String :=
  [ENCRYPTION_MODE_CBC, ENCRYPTION_MODE_CFB, ENCRYPTION_MODE_ECB, ENCRYPTION_MODE_OFB]

/-- Whether `cipher_mode in self._ENCRYPTION_MODES` holds (false for `None`). -/
def cipherModeSupported : Option String → Bool
  | some m => decide (m ∈ ENCRYPTION_MODES)
  | none => false

/-- The argument validation of `AESDecrypter.__init__`: missing key, then
unsupported cipher mode, then missing initialization vector for any mode
other than ECB, each raising `ValueError`. -/
def AESDecrypterInitCheck (cipher_mode : Option String)
    (initialization_vector : Option (List Nat)) (key : Option (List Nat)) :
    Except String Unit :=
  if ! pyBytesTruthy key then Except.error "Missing key."
  else if ! cipherModeSupported cipher_mode then Except.error "Unsupported cipher mode"
  else if cipher_mode ≠ some ENCRYPTION_MODE_ECB ∧
      ! pyBytesTruthy initialization_vector then
    Except.error "Missing initialization vector."
  else Except.ok ()

/-- Claim C9: `AESDecrypter.__init__` raises `ValueError` exactly when the
key is missing, the cipher mode is unsupported, or the mode is not ECB and
no initialization vector is supplied; in particular ECB with a key and no
initialization vector succeeds. -/
theorem aesInit_valueError_iff (cipher_mode : Option String)
    (initialization_vector : Option (List Nat)) (key : Option (List Nat)) :
    (AESDecrypterInitCheck cipher_mode initialization_vector key).isOk = false ↔
      (pyBytesTruthy key = false ∨ cipherModeSupported cipher_mode = false ∨
        (cipher_mode ≠ some ENCRYPTION_MODE_ECB ∧
          pyBytesTruthy initialization_vector = false)) := by
  unfold AESDecrypterInitCheck
  repeat' split
  all_goals simp_all [Except.isOk, Except.toBool]

/-- The `block_size` attribute of the external `cryptography` library's
`algorithms.AES` class, used by `Decrypt` through `self._algorithm`: the
library reports the AES block size in bits, so the value is 128. -/
def AES_block_size : Nat := 128

/-- An `AESDecrypter` after construction: the chaining state of the cipher
context (abstract, supplied by the external backend), the unprocessed-bytes
buffer of `cryptography`'s `CipherContext`, and the algorithm's
`block_size` attribute. -/
structure AESDecrypter (σ : Type) : Type where
  state : σ
  buffer : List Nat
  block_size : Nat

/-- A freshly constructed decrypter: empty context buffer and the
`block_size` of the AES algorithm object. -/
def newAESDecrypter {σ : Type} (s0 : σ) : AESDecrypter σ :=
  { state := s0, buffer := [], block_size := AES_block_size }

/-- Processing of `count` successive 16-byte blocks with the external block
operation `step`, threading the chaining state. -/
def runBlocksAux {σ : Type} (step : σ → List Nat → List Nat × σ) :
    Nat → σ → List Nat → List Nat × σ
  | 0, s, _ => ([], s)
  | count + 1, s, data =>
    let r1 := step s (data.take 16)
    let r2 := runBlocksAux step count r1.2 (data.drop 16)
    (r1.1 ++ r2.1, r2.2)

/-- Block-wise processing underlying the cipher context: decrypt every
complete 16-byte block of `data`, threading the chaining state, and ignore
a trailing fragment shorter than a block. -/
def runBlocks {σ : Type} (step : σ → List Nat → List Nat × σ) (s : σ)
    (data : List Nat) : List Nat × σ :=
  runBlocksAux step (data.length / 16) s data

/-- The `update` method of `cryptography`'s `CipherContext`: prepend the
held-back buffer, process every complete 16-byte block, and keep the
remaining fragment in the buffer.  Returns the produced plaintext, the new
chaining state and the new buffer. -/
def contextUpdate {σ : Type} (step : σ → List Nat → List Nat × σ) (state : σ)
    (buffer : List Nat) (data : List Nat) : List Nat × σ × List Nat :=
  let d := buffer ++ data
  let m := d.length - d.length % 16
  let r := runBlocks step state (d.take m)
  (r.1, r.2, d.drop m)

/-- `AESDecrypter.Decrypt`: split off `len(encrypted_data) % block_size`
trailing bytes as remaining data (note that `block_size` is the
`cryptography` attribute), feed the rest to the cipher context, and return
the decrypted data with the remaining encrypted data. -/
def AESDecrypterDecrypt {σ : Type} (step : σ → List Nat → List Nat × σ)
    (dec : AESDecrypter σ) (encrypted_data : List Nat) :
    (List Nat × List Nat) × AESDecrypter σ :=
  let idx := encrypted_data.length % dec.block_size
  let enc :=
    if idx ≠ 0 then encrypted_data.take (encrypted_data.length - idx) else encrypted_data
  let rem :=
    if idx ≠ 0 then encrypted_data.drop (encrypted_data.length - idx) else []
  let r := contextUpdate step dec.state dec.buffer enc
  ((r.1, rem), { dec with state := r.2.1, buffer := r.2.2 })

/-- The 23-byte ciphertext of the repository's partial-decryption test
(`tests/encryption/aes_decrypter.py`, `testDecrypt`). -/
def testCiphertext : List Nat :=
  [50, 124, 127, 215, 255, 186, 121, 249, 149, 63, 129, 199, 170, 102, 86, 206,
    66, 1, 219, 56, 69, 55, 254]

/-- A trivial concrete block operation, standing in for the external AES
block decryption in concrete evaluations. -/
def identityStep : Unit → List Nat → List Nat × Unit := fun _ b => (b, ())

/-- Claim C3 (divergence): on the repository's own 23-byte test input the
code decrypts nothing and holds back all 23 bytes, because the
`cryptography` library's `block_size` attribute is 128 (bits): `23 % 128`
is 23.  The test — and the claim — require splitting modulo the 16-byte
AES block: a 7-byte tail held back and 16 bytes decrypted. -/
theorem aesDecrypt_blockSize_bug :
    (AESDecrypterDecrypt identityStep (newAESDecrypter ()) testCiphertext).1 =
        ([], testCiphertext) ∧
      testCiphertext.length % 16 = 7 ∧
      testCiphertext.length % AES_block_size = 23 ∧
      testCiphertext.drop (testCiphertext.length - 7) ≠ testCiphertext := by
  refine ⟨by decide, by decide, by decide, by decide⟩

/-- Block processing is a stream homomorphism: processing `x ++ y` with the
counts split accordingly equals processing `x`, then `y` from the reached
state, concatenating the outputs. -/
theorem runBlocksAux_append {σ : Type} (step : σ → List Nat → List Nat × σ) (a m : Nat) :
    ∀ (s : σ) (x y : List Nat), x.length = 16 * a →
      runBlocksAux step (a + m) s (x ++ y) =
        ((runBlocksAux step a s x).1 ++
            (runBlocksAux step m (runBlocksAux step a s x).2 y).1,
          (runBlocksAux step m (runBlocksAux step a s x).2 y).2) := by
  induction a with
  | zero =>
    intro s x y hx
    have hx0 : x = [] := List.eq_nil_of_length_eq_zero (by omega)
    subst hx0
    simp [runBlocksAux]
  | succ a ih =>
    intro s x y hx
    have h16 : 16 ≤ x.length := by omega
    have hdrop : (x.drop 16).length = 16 * a := by
      rw [List.length_drop]; omega
    have hcount : a + 1 + m = (a + m) + 1 := by omega
    rw [hcount]
    simp only [runBlocksAux]
    rw [List.take_append_of_le_length h16, List.drop_append_of_le_length h16]
    rw [ih _ (x.drop 16) y hdrop]
    simp [List.append_assoc]

/-- The `runBlocks` form of the stream homomorphism, for a first part whose
length is a whole number of 16-byte blocks. -/
theorem runBlocks_append {σ : Type} (step : σ → List Nat → List Nat × σ) (s : σ)
    (x y : List Nat) (hx : 16 ∣ x.length) :
    runBlocks step s (x ++ y) =
      ((runBlocks step s x).1 ++ (runBlocks step (runBlocks step s x).2 y).1,
        (runBlocks step (runBlocks step s x).2 y).2) := by
  obtain ⟨a, ha⟩ := hx
  have hlen : (x ++ y).length / 16 = a + y.length / 16 := by
    rw [List.length_append]; omega
  have hx16 : x.length / 16 = a := by omega
  unfold runBlocks
  rw [hlen, hx16]
  exact runBlocksAux_append step a (y.length / 16) s x y ha

/-- Evaluation of `Decrypt` on a decrypter whose context buffer is empty:
it feeds the longest prefix whose length is a multiple of `block_size` to
the block processing, returns the tail as remaining data, and leaves the
context buffer empty again (the prefix length is a multiple of 16). -/
theorem aesDecrypterDecrypt_eq {σ : Type} (step : σ → List Nat → List Nat × σ) (s : σ)
    (x : List Nat) :
    AESDecrypterDecrypt step ⟨s, [], AES_block_size⟩ x =
      (((runBlocks step s (x.take (x.length - x.length % AES_block_size))).1,
          x.drop (x.length - x.length % AES_block_size)),
        ⟨(runBlocks step s (x.take (x.length - x.length % AES_block_size))).2, [],
          AES_block_size⟩) := by
  have henc :
      (if x.length % AES_block_size ≠ 0 then
          x.take (x.length - x.length % AES_block_size)
        else x) =
        x.take (x.length - x.length % AES_block_size) := by
    split
    · rfl
    · rename_i h
      rw [not_not] at h
      rw [h, Nat.sub_zero, List.take_length]
  have hrem :
      (if x.length % AES_block_size ≠ 0 then
          x.drop (x.length - x.length % AES_block_size)
        else []) =
        x.drop (x.length - x.length % AES_block_size) := by
    split
    · rfl
    · rename_i h
      rw [not_not] at h
      rw [h, Nat.sub_zero, List.drop_length]
  have hlen_enc : (x.take (x.length - x.length % AES_block_size)).length =
      x.length - x.length % AES_block_size := by
    rw [List.length_take]; omega
  have hmod16 : (x.length - x.length % AES_block_size) % 16 = 0 := by
    unfold AES_block_size
    omega
  simp only [AESDecrypterDecrypt, contextUpdate]
  rw [henc, hrem]
  simp only [List.nil_append, hlen_enc, hmod16, Nat.sub_zero]
  rw [List.take_take, Nat.min_self, List.drop_take, Nat.sub_self, List.take_zero]

/-- Claim C5: splitting a ciphertext buffer at any point, decrypting the
first part and then the held-back leftover prepended to the second part,
produces the same total plaintext as a single `Decrypt` of the whole buffer
on a fresh decrypter with the same parameters. -/
theorem aesDecrypt_split_round_trip {σ : Type} (step : σ → List Nat → List Nat × σ)
    (s0 : σ) (c : List Nat) (k : Nat) (hk : k ≤ c.length) :
    (AESDecrypterDecrypt step (newAESDecrypter s0) (c.take k)).1.1 ++
        (AESDecrypterDecrypt step
          (AESDecrypterDecrypt step (newAESDecrypter s0) (c.take k)).2
          ((AESDecrypterDecrypt step (newAESDecrypter s0) (c.take k)).1.2 ++
            c.drop k)).1.1 =
      (AESDecrypterDecrypt step (newAESDecrypter s0) c).1.1 := by
  have hfresh : newAESDecrypter s0 = (⟨s0, [], AES_block_size⟩ : AESDecrypter σ) := rfl
  have hB : (0 : Nat) < AES_block_size := by decide
  rw [hfresh, aesDecrypterDecrypt_eq step s0 (c.take k), aesDecrypterDecrypt_eq step s0 c]
  have hlen : (c.take k).length = k := by rw [List.length_take]; omega
  rw [hlen]
  have htake : (c.take k).take (k - k % AES_block_size) =
      c.take (k - k % AES_block_size) := by
    rw [List.take_take, Nat.min_eq_left (by omega)]
  rw [htake]
  rw [aesDecrypterDecrypt_eq step _ ((c.take k).drop (k - k % AES_block_size) ++ c.drop k)]
  have hx2 : (c.take k).drop (k - k % AES_block_size) ++ c.drop k =
      c.drop (k - k % AES_block_size) := by
    rw [List.drop_take]
    have hdk : c.drop k = (c.drop (k - k % AES_block_size)).drop
        (k - (k - k % AES_block_size)) := by
      rw [List.drop_drop]
      congr 1
      omega
    rw [hdk, List.take_append_drop]
  rw [hx2]
  have hlen2 : (c.drop (k - k % AES_block_size)).length =
      c.length - (k - k % AES_block_size) := by
    rw [List.length_drop]
  rw [hlen2]
  have harith :
      c.length - (k - k % AES_block_size) -
          (c.length - (k - k % AES_block_size)) % AES_block_size =
        (c.length - c.length % AES_block_size) - (k - k % AES_block_size) := by
    unfold AES_block_size
    omega
  rw [harith]
  have hsplit : c.take (c.length - c.length % AES_block_size) =
      c.take (k - k % AES_block_size) ++
        (c.drop (k - k % AES_block_size)).take
          ((c.length - c.length % AES_block_size) - (k - k % AES_block_size)) := by
    rw [← List.take_add]
    congr 1
    unfold AES_block_size
    omega
  rw [hsplit]
  have hdvd : 16 ∣ (c.take (k - k % AES_block_size)).length := by
    rw [List.length_take]
    apply Nat.dvd_of_mod_eq_zero
    unfold AES_block_size
    omega
  rw [runBlocks_append step s0 _ _ hdvd]

/-- Witness for claim C5: the round trip at a concrete split of a 130-byte
buffer at index 129 (the first call holds back 1 byte, the second completes
the decryption). -/
theorem aesDecrypt_split_round_trip_witness :
    129 ≤ (List.range 130).length ∧
      (AESDecrypterDecrypt identityStep (newAESDecrypter ())
            ((List.range 130).take 129)).1.1 ++
          (AESDecrypterDecrypt identityStep
            (AESDecrypterDecrypt identityStep (newAESDecrypter ())
              ((List.range 130).take 129)).2
            ((AESDecrypterDecrypt identityStep (newAESDecrypter ())
                ((List.range 130).take 129)).1.2 ++
              (List.range 130).drop 129)).1.1 =
        (AESDecrypterDecrypt identityStep (newAESDecrypter ()) (List.range 130)).1.1 :=
  ⟨by simp, aesDecrypt_split_round_trip identityStep () (List.range 130) 129 (by simp)⟩

/-- The `pytsk3.TSK_VS_PART_FLAG_ALLOC` constant of the external SleuthKit
bindings (the allocated flag, value 1). -/
def TSK_VS_PART_FLAG_ALLOC : Nat := 1

/-- A TSK volume system part object as read through `getattr`: the optional
`flags` and `start` attributes. -/
structure TSKVsPart : Type where
  flags : Option Nat
  start : Option Int
  deriving DecidableEq, Repr

/-- A TSK volume object: its parts (the explicit `list(tsk_volume)` cast)
and the `info.block_size` attribute, `none` when `info` is absent, `None`,
or lacks `block_size`. -/
structure TSKVolume : Type where
  parts : List TSKVsPart
  info_block_size : Option Int
  deriving DecidableEq, Repr

/-- `TSKVolumeGetBytesPerSector`: `info.block_size` when available,
512 otherwise. -/
def TSKVolumeGetBytesPerSector (tsk_volume : TSKVolume) : Int :=
  tsk_volume.info_block_size.getD 512

/-- `TSKVsPartIsAllocated`: the `flags` attribute exists and equals
`TSK_VS_PART_FLAG_ALLOC`. -/
def TSKVsPartIsAllocated (tsk_vs_part : TSKVsPart) : Bool :=
  match tsk_vs_part.flags with
  | none => false
  | some f => f == TSK_VS_PART_FLAG_ALLOC

/-- A path specification as read by `GetTSKVsPartByPathSpec` through
`getattr(path_spec, ..., None)`. -/
structure TSKPathSpec : Type where
  location : Option String
  part_index : Option Int
  start_offset : Option Int
  deriving DecidableEq, Repr

/-- Decimal digit parsing underlying the model of Python `int(text, 10)`. -/
def pyParseDigits (cs : List Char) : Option Nat :=
  if cs ≠ [] ∧ cs.all Char.isDigit then
    some (cs.foldl (fun acc ch => acc * 10 + (ch.toNat - 48)) 0)
  else none

/-- A model of Python `int(text, 10)`: optional surrounding whitespace, an
optional sign, then at least one decimal digit; any other input raises
`ValueError`, modelled as `none`. -/
def pyParseInt (text : String) : Option Int :=
  match text.trim.toList with
  | '+' :: rest => (pyParseDigits rest).map (fun n => (n : Int))
  | '-' :: rest => (pyParseDigits rest).map (fun n => -(n : Int))
  | rest => (pyParseDigits rest).map (fun n => (n : Int))

/-- Whether an optional integer is `None` or negative (the condition under
which the source discards the `location` attribute). -/
def optIntNoneOrNeg : Option Int → Bool
  | none => true
  | some v => v < 0

/-- Whether `part_index` is set and out of bounds for `n` parts. -/
def optIdxOutOfBounds (part_index : Option Int) (n : Int) : Bool :=
  match part_index with
  | some pi => pi < 0 || n ≤ pi
  | none => false

/-- The `for tsk_vs_part in tsk_vs_part_list` loop of
`GetTSKVsPartByPathSpec`: threads `current_part_index` and
`current_partition_index`, breaks on a matching partition index (before the
increment), on a matching part index, or on a matching start offset, and
otherwise remembers the part as the last loop variable value.  Returns the
loop variable (`none` when the list was empty), `current_part_index` and
`current_partition_index` at exit. -/
def partLoop (part_index partition_index start_offset : Option Int)
    (bytes_per_sector : Int) :
    List TSKVsPart → Int → Int → Option TSKVsPart → Option TSKVsPart × Int × Int
  | [], cpi, cqi, last => (last, cpi, cqi)
  | p :: rest, cpi, cqi, _ =>
    if TSKVsPartIsAllocated p ∧ partition_index = some cqi then (some p, cpi, cqi)
    else
      let cqi2 := if TSKVsPartIsAllocated p then cqi + 1 else cqi
      if part_index = some cpi then (some p, cpi, cqi2)
      else if (match start_offset, p.start with
               | some so, some ss => ss * bytes_per_sector == so
               | _, _ => false) then (some p, cpi, cqi2)
      else
        partLoop part_index partition_index start_offset bytes_per_sector rest
          (cpi + 1) cqi2 (some p)

/-- The `partition_index` computed from a `/pN` location when `part_index`
is absent: `int(location[2:], 10) - 1`, or `none` when the prefix is wrong
or the parse raises `ValueError`. -/
def tskPartitionIndex (part_index : Option Int) (location : Option String) : Option Int :=
  if part_index = none then
    match location with
    | some loc =>
      if loc.startsWith "/p" then (pyParseInt (loc.drop 2)).map (fun n => n - 1)
      else none
    | none => none
  else none

/-- The `location` value after the source discards it (`location = None`)
when `partition_index` is `None` or negative; untouched when `part_index`
is set. -/
def tskLocation2 (part_index : Option Int) (location : Option String)
    (partition_index : Option Int) : Option String :=
  if part_index = none then
    match location with
    | some loc => if optIntNoneOrNeg partition_index then none else some loc
    | none => none
  else location

/-- The checks after the part loop: the loop variable must be set and
`current_part_index` must be below the part count, and the partition index
is only reported for an allocated part. -/
def tskSelectFromLoop (n : Int) :
    Option TSKVsPart × Int × Int → Option TSKVsPart × Option Int
  | (none, _, _) => (none, none)
  | (some p, cpi, cqi) =>
    if n ≤ cpi then (none, none)
    else (some p, if TSKVsPartIsAllocated p then some cqi else none)

/-- `GetTSKVsPartByPathSpec` (`pyvfs/lib/tsk_partition.py`): resolves the
TSK volume system part selected by `part_index`, a `/pN` location, or a
`start_offset`, returning `(None, None)` on error. -/
def GetTSKVsPartByPathSpec (tsk_volume : TSKVolume) (path_spec : TSKPathSpec) :
    Option TSKVsPart × Option Int :=
  if path_spec.part_index = none ∧
      tskLocation2 path_spec.part_index path_spec.location
          (tskPartitionIndex path_spec.part_index path_spec.location) = none ∧
      path_spec.start_offset = none then
    (none, none)
  else if 0 < tsk_volume.parts.length ∧
      optIdxOutOfBounds path_spec.part_index (tsk_volume.parts.length : Int) then
    (none, none)
  else
    tskSelectFromLoop (tsk_volume.parts.length : Int)
      (partLoop path_spec.part_index
        (tskPartitionIndex path_spec.part_index path_spec.location)
        path_spec.start_offset (TSKVolumeGetBytesPerSector tsk_volume)
        tsk_volume.parts 0 0 none)

/-- Whether a location attribute selects a partition: it is present, starts
with `/p`, and its suffix parses as an integer `N ≥ 1`. -/
def locSelectsPartition : Option String → Bool
  | some loc =>
    loc.startsWith "/p" &&
      (match pyParseInt (loc.drop 2) with
       | some v => decide (1 ≤ v)
       | none => false)
  | none => false

/-- Claim C10: with no `part_index`, no `start_offset`, and no location of
the form `/pN` with `N ≥ 1` (missing location, wrong prefix, unparsable
suffix, or `N ≤ 0`), `GetTSKVsPartByPathSpec` returns `(None, None)`
without selecting any part. -/
theorem getTSKVsPart_no_selector_returns_none (tsk_volume : TSKVolume)
    (path_spec : TSKPathSpec) (hpi : path_spec.part_index = none)
    (hso : path_spec.start_offset = none)
    (hloc : locSelectsPartition path_spec.location = false) :
    GetTSKVsPartByPathSpec tsk_volume path_spec = (none, none) := by
  have hl2 : tskLocation2 none path_spec.location
      (tskPartitionIndex none path_spec.location) = none := by
    cases hl : path_spec.location with
    | none => rfl
    | some loc =>
      have hmain : (loc.startsWith "/p" &&
          (match pyParseInt (loc.drop 2) with
           | some v => decide (1 ≤ v)
           | none => false)) = false := by
        rw [hl] at hloc
        exact hloc
      unfold tskLocation2 tskPartitionIndex
      by_cases hsw : loc.startsWith "/p"
      · cases hp : pyParseInt (loc.drop 2) with
        | none => simp [hsw, hp, optIntNoneOrNeg]
        | some v =>
          rw [hp] at hmain
          simp only [hsw, Bool.true_and] at hmain
          have hv : v - 1 < 0 := by
            simp at hmain
            omega
          simp [hsw, hp, optIntNoneOrNeg, hv]
      · simp [hsw, optIntNoneOrNeg]
  unfold GetTSKVsPartByPathSpec
  rw [hpi, hso, if_pos ⟨rfl, hl2, rfl⟩]

/-- A sample volume with a single allocated part, for concrete evaluation. -/
def sampleVolume : TSKVolume :=
  { parts := [{ flags := some 1, start := some 0 }], info_block_size := none }

/-- A path specification carrying no location, no `part_index` and no
`start_offset`. -/
def pathSpecEmpty : TSKPathSpec :=
  { location := none, part_index := none, start_offset := none }

/-- Witness for claim C10: a path specification with no selector at all
resolves nothing, even on a volume with an allocated part. -/
theorem getTSKVsPart_no_selector_returns_none_witness :
    GetTSKVsPartByPathSpec sampleVolume pathSpecEmpty = (none, none) :=
  getTSKVsPart_no_selector_returns_none sampleVolume pathSpecEmpty rfl rfl rfl

end DfVFS
